import Mathlib

/-
Shallow embedding of the DSFB authenticated-dashboard front-end:
the route-gating middleware, the Firebase auth-error message mapping,
and the submit handlers of the login, password-change and profile forms.
Async SDK calls are modelled by outcome oracles (an Option AuthError per
awaited call: none means the call succeeded, some e means it threw e),
and each handler is a pure function from its inputs and oracles to the
observable effects it produces (SDK calls issued, toasts shown, state
written, navigations performed).
-/

namespace DSFB

/-- Model of a JavaScript URL built by the expression new URL(path, base):
the constructor resolves the relative path against the base URL taken from
the incoming request.  We keep both components instead of resolving. -/
structure JsURL where
  path : String
  base : String
deriving DecidableEq

/-- The parts of a NextRequest the middleware reads: the parsed pathname,
the cookie list, and the full request url. -/
structure NextRequest where
  pathname : String
  cookies  : List (String × String)
  url      : String
deriving DecidableEq

/-- request.cookies.get(name): the value of the first cookie with the given
name, none when the cookie is absent.  In the source a present cookie is a
truthy object even when its value is the empty string, so presence is
modelled by isSome. -/
def NextRequest.getCookie (r : NextRequest) (name : String) : Option String :=
  (r.cookies.find? (fun p => p.fst == name)).map Prod.snd

/-- Result of the middleware: a redirect response or NextResponse.next(). -/
inductive MiddlewareResult where
  | redirect (target : JsURL)
  | next
deriving DecidableEq

/-- The middleware function of the route guard, embedded from the source:
unauthenticated requests outside the login page are redirected to /login,
authenticated requests to the login page are redirected to /dashboard,
every other request passes through. -/
def middleware (request : NextRequest) : MiddlewareResult :=
  let isLoginPage := request.pathname == "/login"
  let token := request.getCookie "auth-token"
  if !token.isSome && !isLoginPage then
    MiddlewareResult.redirect ⟨"/login", request.url⟩
  else if token.isSome && isLoginPage then
    MiddlewareResult.redirect ⟨"/dashboard", request.url⟩
  else
    MiddlewareResult.next

/-- The destination path chosen by a middleware result: some path for a
redirect, none for pass-through.  This drops the base url that the URL
constructor copies from the request. -/
def MiddlewareResult.decision : MiddlewareResult → Option String
  | MiddlewareResult.redirect u => some u.path
  | MiddlewareResult.next => none

/-- Modelled from the spec: the single-conditional reference definition of
the route guard.  It redirects exactly when cookie presence equals being on
the login page, with destination /dashboard when the cookie is present and
/login when it is absent. -/
def middlewareOneConditional (request : NextRequest) : MiddlewareResult :=
  let hasToken := (request.getCookie "auth-token").isSome
  let isLoginPage := request.pathname == "/login"
  if hasToken = isLoginPage then
    MiddlewareResult.redirect ⟨if hasToken then "/dashboard" else "/login", request.url⟩
  else
    MiddlewareResult.next

/-- A Firebase AuthError as far as the handlers inspect it: its code. -/
structure AuthError where
  code : String
deriving DecidableEq

/-- getErrorMessage from the login form: maps a Firebase auth error code to
a user-facing message, with a generic fallback for unrecognized codes.  The
three credential-related codes share one message via switch fallthrough. -/
def getErrorMessage (error : AuthError) : String :=
  if error.code = "auth/invalid-email" then
    "Please enter a valid email address"
  else if error.code = "auth/user-disabled" then
    "This account has been disabled"
  else if error.code = "auth/user-not-found" ∨ error.code = "auth/wrong-password" ∨
      error.code = "auth/invalid-credential" then
    "Invalid email or password combination"
  else if error.code = "auth/too-many-requests" then
    "Too many failed attempts. Please try again later"
  else if error.code = "auth/network-request-failed" then
    "Network error. Please check your connection"
  else
    "An error occurred while signing in. Please try again"

/-- The error codes that getErrorMessage recognizes with a specific
message, i.e. the case labels of its switch. -/
def handledCodes : List String :=
  ["auth/invalid-email", "auth/user-disabled", "auth/user-not-found",
   "auth/wrong-password", "auth/invalid-credential", "auth/too-many-requests",
   "auth/network-request-failed"]

/-- A toast notification as the forms issue it: the optional variant
(some "destructive" for error toasts, none for the default), title and
description. -/
structure Toast where
  variant : Option String
  title : String
  description : String
deriving DecidableEq

/-- The Firebase SDK operations the form handlers can invoke, with the
arguments they pass. -/
inductive SdkCall where
  | signInWithEmailAndPassword (email password : String)
  | reauthenticateWithCredential (email currentPassword : String)
  | updatePassword (newPassword : String)
  | updateProfile (displayName : String)
deriving DecidableEq

/-- Observable effects of one run of the login submit handler. -/
structure LoginSubmitResult where
  sdkCalls : List SdkCall
  toasts : List Toast
  navigations : List String
  loading : Bool
deriving DecidableEq

/-- handleEmailLogin from the login form: always attempts the sign-in call;
on success pushes /dashboard, on failure shows a destructive toast with the
mapped error message; the finally block resets the loading flag. -/
def LoginForm.handleEmailLogin (email password : String)
    (signInErr : Option AuthError) : LoginSubmitResult :=
  match signInErr with
  | none =>
    { sdkCalls := [SdkCall.signInWithEmailAndPassword email password],
      toasts := [],
      navigations := ["/dashboard"],
      loading := false }
  | some e =>
    { sdkCalls := [SdkCall.signInWithEmailAndPassword email password],
      toasts := [{ variant := some "destructive", title := "Login Failed",
                   description := getErrorMessage e }],
      navigations := [],
      loading := false }

/-- The three controlled inputs of the password-change form. -/
structure PasswordFormData where
  currentPassword : String
  newPassword : String
  confirmPassword : String
deriving DecidableEq

/-- Observable effects of one run of the password submit handler, including
the final value of the three form fields. -/
structure PasswordSubmitResult where
  sdkCalls : List SdkCall
  toasts : List Toast
  formData : PasswordFormData
deriving DecidableEq

/-- The toast built in the catch block of the password submit handler: a
specific message for auth/wrong-password, a generic one otherwise. -/
def passwordUpdateErrorToast (error : AuthError) : Toast :=
  { variant := some "destructive",
    title := "Update Failed",
    description :=
      if error.code = "auth/wrong-password" then
        "Current password is incorrect."
      else
        "Failed to update password. Please try again." }

/-- handleSubmit of the password-change form.  userEmail models
user?.email (none when there is no user or no email; the empty string is
falsy in the guard).  It validates the new password locally, then
reauthenticates and updates the password, clearing the fields on success. -/
def PasswordForm.handleSubmit (userEmail : Option String)
    (formData : PasswordFormData)
    (reauthErr updateErr : Option AuthError) : PasswordSubmitResult :=
  match userEmail with
  | none => { sdkCalls := [], toasts := [], formData := formData }
  | some email =>
    if email = "" then
      { sdkCalls := [], toasts := [], formData := formData }
    else if formData.newPassword ≠ formData.confirmPassword then
      { sdkCalls := [],
        toasts := [{ variant := some "destructive", title := "Password Mismatch",
                     description := "New password and confirm password do not match." }],
        formData := formData }
    else if formData.newPassword.length < 6 then
      { sdkCalls := [],
        toasts := [{ variant := some "destructive", title := "Invalid Password",
                     description := "Password must be at least 6 characters long." }],
        formData := formData }
    else
      match reauthErr with
      | some e =>
        { sdkCalls := [SdkCall.reauthenticateWithCredential email formData.currentPassword],
          toasts := [passwordUpdateErrorToast e],
          formData := formData }
      | none =>
        match updateErr with
        | some e =>
          { sdkCalls := [SdkCall.reauthenticateWithCredential email formData.currentPassword,
                         SdkCall.updatePassword formData.newPassword],
            toasts := [passwordUpdateErrorToast e],
            formData := formData }
        | none =>
          { sdkCalls := [SdkCall.reauthenticateWithCredential email formData.currentPassword,
                         SdkCall.updatePassword formData.newPassword],
            toasts := [{ variant := none, title := "Password Updated",
                         description := "Your password has been updated successfully." }],
            formData := { currentPassword := "", newPassword := "", confirmPassword := "" } }

/-- The two controlled inputs of the profile form. -/
structure ProfileFormData where
  firstName : String
  lastName : String
deriving DecidableEq

/-- Observable effects of one run of the profile submit handler. -/
structure ProfileSubmitResult where
  sdkCalls : List SdkCall
  toasts : List Toast
deriving DecidableEq

/-- Model of the JavaScript String.split(" ") on the character list: split
at every space, keeping empty segments, always at least one segment. -/
def splitCharsOnSpace : List Char → List (List Char)
  | [] => [[]]
  | c :: cs =>
    match splitCharsOnSpace cs with
    | [] => [[]]
    | w :: ws => if c = ' ' then [] :: w :: ws else (c :: w) :: ws

/-- JavaScript s.split(" ") as used by the profile form. -/
def jsSplitSpace (s : String) : List String :=
  (splitCharsOnSpace s.data).map String.mk

/-- Model of JavaScript String.trim(): drop whitespace characters from both
ends of the string. -/
def jsTrim (s : String) : String :=
  String.mk (((s.data.dropWhile Char.isWhitespace).reverse.dropWhile
      Char.isWhitespace).reverse)

/-- Initial profile form state: firstName and lastName are the first two
segments of displayName split at spaces, defaulting to the empty string
(user?.displayName?.split(" ")[0] and [1], each with a falsy fallback). -/
def initProfileForm (displayName : Option String) : ProfileFormData :=
  match displayName with
  | none => { firstName := "", lastName := "" }
  | some s =>
    { firstName := (jsSplitSpace s).getD 0 "",
      lastName := (jsSplitSpace s).getD 1 "" }

/-- The displayName the profile submit handler writes back: the template
string of first and last name, trimmed. -/
def submittedDisplayName (formData : ProfileFormData) : String :=
  jsTrim (formData.firstName ++ " " ++ formData.lastName)

/-- handleSubmit of the profile form: guarded on a truthy user, it calls
updateProfile with the trimmed full name and shows a success or failure
toast. -/
def ProfileForm.handleSubmit (hasUser : Bool) (formData : ProfileFormData)
    (updateErr : Option AuthError) : ProfileSubmitResult :=
  if !hasUser then
    { sdkCalls := [], toasts := [] }
  else
    match updateErr with
    | none =>
      { sdkCalls := [SdkCall.updateProfile (submittedDisplayName formData)],
        toasts := [{ variant := none, title := "Profile Updated",
                     description := "Your profile information has been updated successfully." }] }
    | some _ =>
      { sdkCalls := [SdkCall.updateProfile (submittedDisplayName formData)],
        toasts := [{ variant := some "destructive", title := "Update Failed",
                     description := "Failed to update profile. Please try again." }] }

/-- Whether a string starts with a whitespace character. -/
def hasLeadingWhitespace (s : String) : Bool :=
  match s.data.head? with
  | none => false
  | some c => c.isWhitespace

/-- Whether a string ends with a whitespace character. -/
def hasTrailingWhitespace (s : String) : Bool :=
  match s.data.getLast? with
  | none => false
  | some c => c.isWhitespace

/-- Claim C1: every request whose pathname is not /login and which carries
no auth-token cookie is redirected by the middleware to the login path
/login (resolved against the request url). -/
theorem middleware_redirects_unauthenticated (r : NextRequest)
    (hp : r.pathname ≠ "/login") (hc : r.getCookie "auth-token" = none) :
    middleware r = MiddlewareResult.redirect ⟨"/login", r.url⟩ := by
  simp [middleware, hc, hp]

/-- Witness for C1 at a concrete request. -/
theorem middleware_redirects_unauthenticated_witness :
    middleware ⟨"/dashboard", [], "https://example.com/dashboard"⟩ =
      MiddlewareResult.redirect ⟨"/login", "https://example.com/dashboard"⟩ :=
  middleware_redirects_unauthenticated
    ⟨"/dashboard", [], "https://example.com/dashboard"⟩ (by decide) rfl

/-- Claim C2: a request to /login that carries the auth-token cookie is
redirected to /dashboard, and every case not covered by the two redirect
branches passes through unchanged. -/
theorem middleware_login_gate (r : NextRequest) :
    ((r.getCookie "auth-token").isSome = true → r.pathname = "/login" →
      middleware r = MiddlewareResult.redirect ⟨"/dashboard", r.url⟩) ∧
    (¬((r.getCookie "auth-token").isSome = false ∧ r.pathname ≠ "/login") →
      ¬((r.getCookie "auth-token").isSome = true ∧ r.pathname = "/login") →
      middleware r = MiddlewareResult.next) := by
  constructor
  · intro ht hp
    simp [middleware, ht, hp]
  · intro h₁ h₂
    by_cases hp : r.pathname = "/login" <;>
      cases ht : (r.getCookie "auth-token").isSome
    · simp [middleware, hp, ht]
    · exact absurd ⟨ht, hp⟩ h₂
    · exact absurd ⟨ht, hp⟩ h₁
    · simp [middleware, hp, ht]

/-- Witness for C2 at a concrete authenticated request to /login. -/
theorem middleware_login_gate_witness :
    middleware ⟨"/login", [("auth-token", "tok")], "https://example.com/login"⟩ =
      MiddlewareResult.redirect ⟨"/dashboard", "https://example.com/login"⟩ :=
  (middleware_login_gate
    ⟨"/login", [("auth-token", "tok")], "https://example.com/login"⟩).1 rfl rfl

/-- Claim C3: the two-branch middleware equals the single-conditional
reference definition on every request. -/
theorem middleware_eq_oneConditional (r : NextRequest) :
    middleware r = middlewareOneConditional r := by
  simp only [middleware, middlewareOneConditional]
  cases ht : (r.getCookie "auth-token").isSome <;>
    cases hp : r.pathname == "/login" <;> simp [ht, hp]

/-- Counterexample for C4 as stated: two requests with the same pathname
and the same cookie-presence status can produce different middleware
results, because the redirect target is resolved against the request url. -/
theorem middleware_result_depends_on_url :
    middleware ⟨"/x", [], "https://a.example/x"⟩ ≠
      middleware ⟨"/x", [], "https://b.example/x"⟩ ∧
    (NextRequest.mk "/x" [] "https://a.example/x").pathname =
      (NextRequest.mk "/x" [] "https://b.example/x").pathname ∧
    ((NextRequest.mk "/x" [] "https://a.example/x").getCookie "auth-token").isSome =
      ((NextRequest.mk "/x" [] "https://b.example/x").getCookie "auth-token").isSome := by
  decide

/-- Claim C4 (amended): the decision of the middleware, i.e. the chosen
destination path or pass-through, depends only on the pathname and on the
presence of the auth-token cookie. -/
theorem middleware_decision_noninterference (r₁ r₂ : NextRequest)
    (hp : r₁.pathname = r₂.pathname)
    (hc : (r₁.getCookie "auth-token").isSome = (r₂.getCookie "auth-token").isSome) :
    (middleware r₁).decision = (middleware r₂).decision := by
  simp only [middleware, hp, hc]
  cases ht : (r₂.getCookie "auth-token").isSome <;>
    cases hpl : r₂.pathname == "/login" <;>
      simp [ht, hpl, MiddlewareResult.decision]

/-- Witness for C4 (amended) at two concrete requests differing in url and
cookie value. -/
theorem middleware_decision_noninterference_witness :
    (middleware ⟨"/a", [("auth-token", "x")], "https://a.example/a"⟩).decision =
      (middleware ⟨"/a", [("auth-token", "y")], "https://b.example/a"⟩).decision :=
  middleware_decision_noninterference
    ⟨"/a", [("auth-token", "x")], "https://a.example/a"⟩
    ⟨"/a", [("auth-token", "y")], "https://b.example/a"⟩ rfl rfl

/-- Counterexample for C5 as stated: the switch of getErrorMessage handles
seven error codes, not six; the seven codes are pairwise distinct and none
of them maps to the generic fallback message. -/
theorem getErrorMessage_seven_handled :
    handledCodes.length = 7 ∧ handledCodes.Nodup ∧
    (handledCodes.map (fun c => getErrorMessage ⟨c⟩)).all
      (fun m => m != "An error occurred while signing in. Please try again") = true := by
  decide

/-- Claim C5 (amended): getErrorMessage is total with non-empty messages,
the three credential-related codes share the message about an invalid
email or password combination, and every code outside the seven handled
ones maps to the generic fallback message. -/
theorem getErrorMessage_total_and_fallback (error : AuthError) :
    getErrorMessage error ≠ "" ∧
    getErrorMessage ⟨"auth/user-not-found"⟩ = "Invalid email or password combination" ∧
    getErrorMessage ⟨"auth/wrong-password"⟩ = "Invalid email or password combination" ∧
    getErrorMessage ⟨"auth/invalid-credential"⟩ = "Invalid email or password combination" ∧
    (error.code ∉ handledCodes →
      getErrorMessage error = "An error occurred while signing in. Please try again") := by
  refine ⟨?_, by decide, by decide, by decide, ?_⟩
  · unfold getErrorMessage
    split
    · decide
    · split
      · decide
      · split
        · decide
        · split
          · decide
          · split <;> decide
  · intro h
    simp only [handledCodes, List.mem_cons, List.not_mem_nil, or_false, not_or] at h
    obtain ⟨h₁, h₂, h₃, h₄, h₅, h₆, h₇⟩ := h
    simp [getErrorMessage, h₁, h₂, h₃, h₄, h₅, h₆, h₇]

/-- Witness for C5 (amended) at a concrete unhandled code. -/
theorem getErrorMessage_total_and_fallback_witness :
    getErrorMessage ⟨"auth/strange"⟩ =
      "An error occurred while signing in. Please try again" :=
  (getErrorMessage_total_and_fallback ⟨"auth/strange"⟩).2.2.2.2 (by decide)

/-- Counterexample for C6 as stated: a password-change submission that
reaches the SDK and succeeds invokes two SDK operations, not one. -/
theorem passwordForm_two_sdk_calls :
    (PasswordForm.handleSubmit (some "user@example.com")
      ⟨"oldpass", "newpass1", "newpass1"⟩ none none).sdkCalls.length = 2 := by
  decide

/-- Claim C6 (amended): a profile submission with a user performs exactly
one SDK call; a password submission that passes validation performs the
reauthentication call and, exactly when it succeeds, the password update
as well: two calls on reauthentication success, one on failure. -/
theorem settingsForms_sdk_call_counts (profileData : ProfileFormData)
    (profileErr : Option AuthError) (email : String) (fd : PasswordFormData)
    (reauthErr updateErr : Option AuthError)
    (hemail : email ≠ "")
    (hmatch : fd.newPassword = fd.confirmPassword)
    (hlen : ¬ fd.newPassword.length < 6) :
    (ProfileForm.handleSubmit true profileData profileErr).sdkCalls.length = 1 ∧
    (PasswordForm.handleSubmit (some email) fd reauthErr updateErr).sdkCalls.length =
      (if reauthErr = none then 2 else 1) := by
  constructor
  · cases profileErr <;> simp [ProfileForm.handleSubmit]
  · have hlen₂ : ¬ fd.confirmPassword.length < 6 := by
      rw [← hmatch]; exact hlen
    cases reauthErr with
    | none =>
      cases updateErr <;>
        simp [PasswordForm.handleSubmit, hemail, hmatch, hlen, hlen₂]
    | some e =>
      simp [PasswordForm.handleSubmit, hemail, hmatch, hlen, hlen₂]

/-- Witness for C6 (amended) at concrete form data. -/
theorem settingsForms_sdk_call_counts_witness :
    (ProfileForm.handleSubmit true ⟨"Ada", "Lovelace"⟩ none).sdkCalls.length = 1 :=
  (settingsForms_sdk_call_counts ⟨"Ada", "Lovelace"⟩ none "user@example.com"
    ⟨"old", "newpass1", "newpass1"⟩ none none (by decide) rfl (by decide)).1

/-- Claim C7: the login submit handler navigates to /dashboard exactly when
the sign-in call succeeds; on failure it navigates nowhere and shows one
destructive toast whose description is the mapped error message; in both
cases the loading flag ends up false. -/
theorem handleEmailLogin_failure_no_navigation (email password : String)
    (signInErr : Option AuthError) :
    ((LoginForm.handleEmailLogin email password signInErr).navigations =
        ["/dashboard"] ↔ signInErr = none) ∧
    (∀ e, signInErr = some e →
      (LoginForm.handleEmailLogin email password signInErr).navigations = [] ∧
      (LoginForm.handleEmailLogin email password signInErr).toasts =
        [{ variant := some "destructive", title := "Login Failed",
           description := getErrorMessage e }]) ∧
    (LoginForm.handleEmailLogin email password signInErr).loading = false := by
  cases signInErr <;> simp [LoginForm.handleEmailLogin]

/-- Witness for C7 at a concrete failed sign-in. -/
theorem handleEmailLogin_failure_no_navigation_witness :
    (LoginForm.handleEmailLogin "user@example.com" "pw"
      (some ⟨"auth/wrong-password"⟩)).navigations = [] :=
  ((handleEmailLogin_failure_no_navigation "user@example.com" "pw"
    (some ⟨"auth/wrong-password"⟩)).2.1 ⟨"auth/wrong-password"⟩ rfl).1

/-- Counterexample for C8 as stated: a submission with mismatched new and
confirm passwords but no signed-in user returns silently before
validation, showing no error toast at all. -/
theorem passwordForm_validation_no_user_silent :
    ("newpass1" : String) ≠ "different" ∧
    (PasswordForm.handleSubmit none ⟨"old", "newpass1", "different"⟩
      none none).toasts = [] := by
  decide

/-- Claim C8 (amended): for a submission by a signed-in user with an
email, when the new and confirm passwords differ, or the new password is
shorter than 6 characters, the password submit handler issues no SDK
call, leaves the three fields unchanged, and shows exactly the
corresponding validation error toast. -/
theorem passwordForm_validation_atomic (email : String) (fd : PasswordFormData)
    (reauthErr updateErr : Option AuthError) (hemail : email ≠ "")
    (hv : fd.newPassword ≠ fd.confirmPassword ∨ fd.newPassword.length < 6) :
    (PasswordForm.handleSubmit (some email) fd reauthErr updateErr).sdkCalls = [] ∧
    (PasswordForm.handleSubmit (some email) fd reauthErr updateErr).formData = fd ∧
    ((PasswordForm.handleSubmit (some email) fd reauthErr updateErr).toasts =
        [⟨some "destructive", "Password Mismatch",
          "New password and confirm password do not match."⟩] ∨
      (PasswordForm.handleSubmit (some email) fd reauthErr updateErr).toasts =
        [⟨some "destructive", "Invalid Password",
          "Password must be at least 6 characters long."⟩]) := by
  by_cases hm : fd.newPassword = fd.confirmPassword
  · have hlen : fd.newPassword.length < 6 := hv.resolve_left (not_not_intro hm)
    have hlen₂ : fd.confirmPassword.length < 6 := by rw [← hm]; exact hlen
    simp [PasswordForm.handleSubmit, hemail, hm, hlen, hlen₂]
  · simp [PasswordForm.handleSubmit, hemail, hm]

/-- Witness for C8 at a concrete too-short new password. -/
theorem passwordForm_validation_atomic_witness :
    (PasswordForm.handleSubmit (some "user@example.com")
      ⟨"old", "short", "short"⟩ none none).sdkCalls = [] :=
  (passwordForm_validation_atomic "user@example.com" ⟨"old", "short", "short"⟩
    none none (by decide) (Or.inr (by decide))).1

/-- Claim C9: for a validated password submission, the three fields are
reset to the empty string exactly when both the reauthentication and the
password update succeed; when either call throws, the fields keep their
submitted values and only the one catch-block error toast is shown. -/
theorem passwordForm_clears_exactly_on_success (email : String)
    (fd : PasswordFormData) (reauthErr updateErr : Option AuthError)
    (hemail : email ≠ "") (hmatch : fd.newPassword = fd.confirmPassword)
    (hlen : ¬ fd.newPassword.length < 6) :
    ((PasswordForm.handleSubmit (some email) fd reauthErr updateErr).formData =
        ⟨"", "", ""⟩ ↔ reauthErr = none ∧ updateErr = none) ∧
    (∀ e, reauthErr = some e →
      (PasswordForm.handleSubmit (some email) fd reauthErr updateErr).formData = fd ∧
      (PasswordForm.handleSubmit (some email) fd reauthErr updateErr).toasts =
        [passwordUpdateErrorToast e]) ∧
    (∀ e, reauthErr = none → updateErr = some e →
      (PasswordForm.handleSubmit (some email) fd reauthErr updateErr).formData = fd ∧
      (PasswordForm.handleSubmit (some email) fd reauthErr updateErr).toasts =
        [passwordUpdateErrorToast e]) := by
  have hne : fd ≠ ⟨"", "", ""⟩ := by
    intro h
    rw [h] at hlen
    exact hlen (by decide)
  have hlen₂ : ¬ fd.confirmPassword.length < 6 := by rw [← hmatch]; exact hlen
  cases reauthErr with
  | none =>
    cases updateErr <;>
      simp [PasswordForm.handleSubmit, hemail, hmatch, hlen, hlen₂, hne]
  | some e =>
    simp [PasswordForm.handleSubmit, hemail, hmatch, hlen, hlen₂, hne]

/-- Witness for C9 at a concrete successful password change. -/
theorem passwordForm_clears_exactly_on_success_witness :
    (PasswordForm.handleSubmit (some "user@example.com")
      ⟨"old", "newpass1", "newpass1"⟩ none none).formData = ⟨"", "", ""⟩ :=
  (passwordForm_clears_exactly_on_success "user@example.com"
    ⟨"old", "newpass1", "newpass1"⟩ none none (by decide) rfl (by decide)).1.mpr
    ⟨rfl, rfl⟩

theorem splitCharsOnSpace_ne_nil (l : List Char) : splitCharsOnSpace l ≠ [] := by
  cases l with
  | nil => simp [splitCharsOnSpace]
  | cons c cs =>
    simp only [splitCharsOnSpace]
    cases h : splitCharsOnSpace cs with
    | nil => simp
    | cons w ws =>
      by_cases hc : c = ' ' <;> simp [hc]

theorem splitCharsOnSpace_no_space (l : List Char) (h : ∀ c ∈ l, c ≠ ' ') :
    splitCharsOnSpace l = [l] := by
  induction l with
  | nil => rfl
  | cons c cs ih =>
    have hc : c ≠ ' ' := h c (List.mem_cons_self c cs)
    have ih₂ := ih (fun d hd => h d (List.mem_cons_of_mem c hd))
    simp only [splitCharsOnSpace, ih₂]
    simp [hc]

theorem splitCharsOnSpace_append (l r : List Char) (h : ∀ c ∈ l, c ≠ ' ') :
    splitCharsOnSpace (l ++ ' ' :: r) = l :: splitCharsOnSpace r := by
  induction l with
  | nil =>
    simp only [List.nil_append, splitCharsOnSpace]
    cases hr : splitCharsOnSpace r with
    | nil => exact absurd hr (splitCharsOnSpace_ne_nil r)
    | cons w ws => simp
  | cons c cs ih =>
    have hc : c ≠ ' ' := h c (List.mem_cons_self c cs)
    have ih₂ := ih (fun d hd => h d (List.mem_cons_of_mem c hd))
    simp only [List.cons_append, splitCharsOnSpace, List.append_eq]
    rw [ih₂]
    simp [hc]

theorem data_ne_nil_of_ne_empty (s : String) (h : s ≠ "") : s.data ≠ [] := by
  intro hd
  apply h
  cases s with
  | mk d =>
    cases hd
    rfl

theorem data_two_words (w₁ w₂ : String) :
    (w₁ ++ " " ++ w₂).data = w₁.data ++ ' ' :: w₂.data := by
  have hsp : (" " : String).data = [' '] := rfl
  simp [String.data_append, hsp]

theorem jsSplitSpace_two_words (w₁ w₂ : String)
    (h₁ : ∀ c ∈ w₁.data, c ≠ ' ') (h₂ : ∀ c ∈ w₂.data, c ≠ ' ') :
    jsSplitSpace (w₁ ++ " " ++ w₂) = [w₁, w₂] := by
  rw [jsSplitSpace, data_two_words, splitCharsOnSpace_append _ _ h₁,
      splitCharsOnSpace_no_space _ h₂]
  rfl

theorem initProfileForm_two_words (w₁ w₂ : String)
    (h₁ : ∀ c ∈ w₁.data, c ≠ ' ') (h₂ : ∀ c ∈ w₂.data, c ≠ ' ') :
    initProfileForm (some (w₁ ++ " " ++ w₂)) = ⟨w₁, w₂⟩ := by
  simp [initProfileForm, jsSplitSpace_two_words w₁ w₂ h₁ h₂]

theorem head?_dropWhile_false (p : Char → Bool) (l : List Char) :
    ∀ c, (l.dropWhile p).head? = some c → p c = false := by
  induction l with
  | nil =>
    intro c h
    simp [List.dropWhile] at h
  | cons a t ih =>
    intro c h
    by_cases hpa : p a
    · rw [List.dropWhile_cons, if_pos hpa] at h
      exact ih c h
    · rw [List.dropWhile_cons, if_neg hpa] at h
      simp only [List.head?_cons, Option.some.injEq] at h
      rw [← h]
      simpa using hpa

theorem dropWhile_eq_self_of_head (p : Char → Bool) (l : List Char)
    (h : ∀ c, l.head? = some c → p c = false) : l.dropWhile p = l := by
  cases l with
  | nil => rfl
  | cons a t =>
    have ha := h a rfl
    rw [List.dropWhile_cons, if_neg]
    simp [ha]

theorem getLast?_eq_of_suffix {l₁ l₂ : List Char} (h : l₁ <:+ l₂)
    (hne : l₁ ≠ []) : l₁.getLast? = l₂.getLast? := by
  obtain ⟨t, rfl⟩ := h
  rw [List.getLast?_append]
  cases hl : l₁.getLast? with
  | none => exact absurd (List.getLast?_eq_none_iff.mp hl) hne
  | some c => rfl

theorem jsTrim_eq_self (s : String)
    (hh : ∀ c, s.data.head? = some c → c.isWhitespace = false)
    (hl : ∀ c, s.data.getLast? = some c → c.isWhitespace = false) :
    jsTrim s = s := by
  rw [jsTrim, dropWhile_eq_self_of_head _ _ hh]
  rw [dropWhile_eq_self_of_head]
  · rw [List.reverse_reverse]
  · intro c hc
    rw [List.head?_reverse] at hc
    exact hl c hc

theorem jsTrim_two_words (w₁ w₂ : String) (h₁ : w₁ ≠ "") (h₂ : w₂ ≠ "")
    (hw₁ : ∀ c ∈ w₁.data, c.isWhitespace = false)
    (hw₂ : ∀ c ∈ w₂.data, c.isWhitespace = false) :
    jsTrim (w₁ ++ " " ++ w₂) = w₁ ++ " " ++ w₂ := by
  apply jsTrim_eq_self
  · intro c hc
    rw [data_two_words] at hc
    cases hd : w₁.data with
    | nil => exact absurd hd (data_ne_nil_of_ne_empty w₁ h₁)
    | cons a t =>
      rw [hd] at hc
      simp only [List.cons_append, List.head?_cons, Option.some.injEq] at hc
      rw [← hc]
      exact hw₁ a (by rw [hd]; exact List.mem_cons_self a t)
  · intro c hc
    rw [data_two_words] at hc
    cases hb : w₂.data.getLast? with
    | none =>
      exact absurd (List.getLast?_eq_none_iff.mp hb)
        (data_ne_nil_of_ne_empty w₂ h₂)
    | some b =>
      have hlast : (w₁.data ++ ' ' :: w₂.data).getLast? = some b := by
        have hcons : (' ' :: w₂.data).getLast? = some b := by
          rw [← List.singleton_append, List.getLast?_append, hb]
          rfl
        rw [List.getLast?_append, hcons]
        rfl
      rw [hlast] at hc
      simp only [Option.some.injEq] at hc
      rw [← hc]
      exact hw₂ b (List.mem_of_getLast?_eq_some hb)

theorem hasTrailingWhitespace_jsTrim (s : String) :
    hasTrailingWhitespace (jsTrim s) = false := by
  unfold hasTrailingWhitespace jsTrim
  simp only [List.getLast?_reverse]
  cases hh : ((s.data.dropWhile Char.isWhitespace).reverse.dropWhile
      Char.isWhitespace).head? with
  | none => simp [hh]
  | some c =>
    have hc := head?_dropWhile_false Char.isWhitespace
      (s.data.dropWhile Char.isWhitespace).reverse c hh
    simp [hh, hc]

theorem hasLeadingWhitespace_jsTrim (s : String) :
    hasLeadingWhitespace (jsTrim s) = false := by
  unfold hasLeadingWhitespace jsTrim
  simp only [List.head?_reverse]
  cases hg : ((s.data.dropWhile Char.isWhitespace).reverse.dropWhile
      Char.isWhitespace).getLast? with
  | none => simp [hg]
  | some c =>
    have hne : (s.data.dropWhile Char.isWhitespace).reverse.dropWhile
        Char.isWhitespace ≠ [] := by
      intro h
      rw [h] at hg
      exact Option.noConfusion hg
    have hsuf := List.dropWhile_suffix (l := (s.data.dropWhile
      Char.isWhitespace).reverse) Char.isWhitespace
    have heq := getLast?_eq_of_suffix hsuf hne
    rw [heq, List.getLast?_reverse] at hg
    have hc := head?_dropWhile_false Char.isWhitespace s.data c hg
    simp [hg, hc]

/-- Claim C10: initializing the profile form from a displayName of exactly
two space-free non-empty words and submitting it unchanged writes back the
same displayName; in general the submitted displayName is the trimmed
concatenation of the two fields and so never starts or ends with
whitespace. -/
theorem profileForm_displayName_roundtrip (w₁ w₂ : String)
    (fd : ProfileFormData) (updateErr : Option AuthError)
    (h₁ : w₁ ≠ "") (h₂ : w₂ ≠ "")
    (hw₁ : ∀ c ∈ w₁.data, c.isWhitespace = false)
    (hw₂ : ∀ c ∈ w₂.data, c.isWhitespace = false) :
    (ProfileForm.handleSubmit true (initProfileForm (some (w₁ ++ " " ++ w₂)))
        updateErr).sdkCalls = [SdkCall.updateProfile (w₁ ++ " " ++ w₂)] ∧
    submittedDisplayName fd = jsTrim (fd.firstName ++ " " ++ fd.lastName) ∧
    hasLeadingWhitespace (submittedDisplayName fd) = false ∧
    hasTrailingWhitespace (submittedDisplayName fd) = false := by
  have hsp₁ : ∀ c ∈ w₁.data, c ≠ ' ' := by
    intro c hc he
    have hcw := hw₁ c hc
    rw [he] at hcw
    exact absurd hcw (by decide)
  have hsp₂ : ∀ c ∈ w₂.data, c ≠ ' ' := by
    intro c hc he
    have hcw := hw₂ c hc
    rw [he] at hcw
    exact absurd hcw (by decide)
  refine ⟨?_, rfl, hasLeadingWhitespace_jsTrim _, hasTrailingWhitespace_jsTrim _⟩
  rw [initProfileForm_two_words w₁ w₂ hsp₁ hsp₂]
  have htrim : submittedDisplayName ⟨w₁, w₂⟩ = w₁ ++ " " ++ w₂ := by
    rw [submittedDisplayName]
    exact jsTrim_two_words w₁ w₂ h₁ h₂ hw₁ hw₂
  cases updateErr <;> simp [ProfileForm.handleSubmit, htrim]

/-- Witness for C10 at a concrete two-word display name. -/
theorem profileForm_displayName_roundtrip_witness :
    (ProfileForm.handleSubmit true
        (initProfileForm (some ("Ada" ++ " " ++ "Lovelace"))) none).sdkCalls =
      [SdkCall.updateProfile ("Ada" ++ " " ++ "Lovelace")] :=
  (profileForm_displayName_roundtrip "Ada" "Lovelace" ⟨"Ada", "Lovelace"⟩ none
    (by decide) (by decide) (by decide) (by decide)).1

end DSFB
